import Mathlib

/-
  Shallow embedding of the trigger subsystem of the hexaFn repository
  (crates/hexafn-trigger/src/domain/value_objects), together with proofs
  about the embedded operations.

  Modelling conventions:
  * Rust `u64` counters are modelled as `Nat`; the counter increments in the
    state machine can only overflow after 2^64 operations on one value, which
    no realizable call sequence reaches, so the counters are left unbounded.
    Where a `u64` multiplication can actually overflow (timer parsing), the
    release-profile wrapping arithmetic is modelled explicitly with `% 2^64`,
    and the overflow condition (which panics under overflow checks) is made
    a separate predicate.
  * `Timestamp` is opaque in the source (wall clock); it is modelled as a
    `Nat` tick supplied to each operation as an explicit `now` argument.
  * Rust `HashMap<String, String>` is modelled as an association list.
  * Rust `String::len` counts UTF-8 bytes.  `EventPattern::validate_pattern`,
    where a claim asserts acceptance up to the bound, models it exactly as
    `String.utf8ByteSize`.  The remaining length checks (trigger names,
    logical expressions, metadata entries) are modelled as character counts:
    those agree with the byte counts on the ASCII strings involved, and a
    character count over a bound forces the byte count over the same bound,
    the direction those rejection claims need.
  * The external `regex` crate appears only behind `EventPattern::with_regex`
    and in the duration regex `^(\d+)(s|m|h|d)$`; the duration regex is
    expanded to its explicit meaning (nonempty digit run followed by a unit
    letter), and a compiled event regex is modelled as the matcher function
    the external engine would return.
-/

namespace HexaFn

/-- Construction/config-time validation errors.  The enum itself is declared
outside the packaged sources (only used there); its variants are reconstructed
from the specification (§7) and from every construction site in the trigger
crate. -/
inductive ValidationError where
  | emptyValue (field : String)
  | tooShort (field : String) (length : Nat) (min : Nat)
  | tooLong (field : String) (length : Nat) (max : Nat)
  | invalidValue (field : String) (value : String) (reason : String)
  | invalidTimestamp (reason : String)
  deriving Repr, DecidableEq

/-- Available trigger states (`StateType` in trigger_state.rs). -/
inductive StateType where
  | inactive
  | active
  | executing
  | success
  | failed
  | suspended
  | archived
  deriving Repr, DecidableEq, Fintype

/-- Possible state transition errors (`StateTransitionError` in
trigger_state.rs). -/
inductive StateTransitionError where
  | invalidTransition (from_ : StateType) (to_ : StateType) (reason : String)
  | maxFailuresExceeded (current_failures : Nat) (max_allowed : Nat)
  | validationFailed (state : StateType) (reason : String)
  deriving Repr, DecidableEq

namespace StateType

/-- `impl fmt::Display for StateType`. -/
def display : StateType → String
  | .inactive => "inactive"
  | .active => "active"
  | .executing => "executing"
  | .success => "success"
  | .failed => "failed"
  | .suspended => "suspended"
  | .archived => "archived"

/-- `StateType::can_transition_to`, with the source's match arms in source
order; in particular the `(Archived, _) => false` arm precedes the
self-transition guard arm. -/
def can_transition_to (self target : StateType) : Bool :=
  match self, target with
  -- From Inactive
  | .inactive, .active => true
  | .inactive, .archived => true
  -- From Active
  | .active, .executing => true
  | .active, .suspended => true
  | .active, .inactive => true
  | .active, .archived => true
  -- From Executing
  | .executing, .success => true
  | .executing, .failed => true
  | .executing, .suspended => true
  -- From Success
  | .success, .active => true
  | .success, .suspended => true
  | .success, .archived => true
  -- From Failed
  | .failed, .active => true
  | .failed, .suspended => true
  | .failed, .archived => true
  -- From Suspended
  | .suspended, .active => true
  | .suspended, .inactive => true
  | .suspended, .archived => true
  -- From Archived (terminal state): this arm fires before the
  -- self-transition arm below, so archived -> archived is false
  | .archived, _ => false
  -- Self-transitions (idempotent)
  | state, target => state = target

/-- `StateType::is_terminal`. -/
def is_terminal (self : StateType) : Bool :=
  match self with
  | .archived => true
  | _ => false

end StateType

/-- `TriggerState` (trigger_state.rs), with `Timestamp` modelled as a `Nat`
tick and the metadata `HashMap` as an association list. -/
structure TriggerState where
  current_state : StateType
  previous_state : Option StateType
  entered_at : Nat
  reason : Option String
  execution_count : Nat
  failure_count : Nat
  last_executed_at : Option Nat
  metadata : List (String × String)
  deriving Repr, DecidableEq

namespace TriggerState

/-- `TriggerState::new`; `Timestamp::now()` becomes the explicit `now`. -/
def new (initial_state : StateType) (now : Nat) : TriggerState :=
  { current_state := initial_state
    previous_state := none
    entered_at := now
    reason := none
    execution_count := 0
    failure_count := 0
    last_executed_at := none
    metadata := [] }

/-- `TriggerState::transition_to_with_reason`. -/
def transition_to_with_reason (self : TriggerState) (target_state : StateType)
    (reason : Option String) (now : Nat) :
    Except StateTransitionError TriggerState :=
  if self.current_state.can_transition_to target_state then
    .ok { self with
          previous_state := some self.current_state
          current_state := target_state
          entered_at := now
          reason := reason }
  else
    .error (.invalidTransition self.current_state target_state
      ("Transition from " ++ self.current_state.display ++ " to "
        ++ target_state.display ++ " is not allowed"))

/-- `TriggerState::transition_to`. -/
def transition_to (self : TriggerState) (target_state : StateType)
    (now : Nat) : Except StateTransitionError TriggerState :=
  self.transition_to_with_reason target_state none now

/-- `TriggerState::record_execution_success`. -/
def record_execution_success (self : TriggerState) (now : Nat) :
    Except StateTransitionError TriggerState :=
  if self.current_state = .executing then
    let s := { self with
               execution_count := self.execution_count + 1
               failure_count := 0
               last_executed_at := some now }
    s.transition_to_with_reason .success
      (some "Execution completed successfully") now
  else
    .error (.invalidTransition self.current_state .success
      "Can only record success from executing state")

/-- `TriggerState::record_execution_failure`. -/
def record_execution_failure (self : TriggerState) (error_message : String)
    (max_failures : Nat) (now : Nat) :
    Except StateTransitionError TriggerState :=
  if self.current_state = .executing then
    let s := { self with
               execution_count := self.execution_count + 1
               failure_count := self.failure_count + 1
               last_executed_at := some now }
    if s.failure_count > max_failures then
      .error (.maxFailuresExceeded s.failure_count max_failures)
    else
      s.transition_to_with_reason .failed
        (some ("Execution failed: " ++ error_message)) now
  else
    .error (.invalidTransition self.current_state .failed
      "Can only record failure from executing state")

/-- `TriggerState::start_execution`. -/
def start_execution (self : TriggerState) (now : Nat) :
    Except StateTransitionError TriggerState :=
  self.transition_to_with_reason .executing (some "Execution started") now

/-- `TriggerState::suspend`. -/
def suspend (self : TriggerState) (reason : String) (now : Nat) :
    Except StateTransitionError TriggerState :=
  self.transition_to_with_reason .suspended (some reason) now

/-- `TriggerState::archive`. -/
def archive (self : TriggerState) (reason : String) (now : Nat) :
    Except StateTransitionError TriggerState :=
  self.transition_to_with_reason .archived (some reason) now

/-- `TriggerState::resume`. -/
def resume (self : TriggerState) (now : Nat) :
    Except StateTransitionError TriggerState :=
  if self.current_state = .suspended then
    self.transition_to_with_reason .active (some "Resumed from suspension") now
  else
    .error (.invalidTransition self.current_state .active
      "Can only resume from suspended state")

end TriggerState

/-! ## Timer expressions (trigger_condition.rs) -/

/-- One second, minute, hour or day: the unit alternative
`(s|m|h|d)` of the duration regex. -/
def isTimerUnit (c : Char) : Bool :=
  c = 's' || c = 'm' || c = 'h' || c = 'd'

/-- Decimal value of a digit run, as `str::parse::<u64>` computes it
(leading zeros permitted); unbounded here, the `u64` range check is applied
at the use site. -/
def digitsVal (ds : List Char) : Nat :=
  ds.foldl (fun n c => n * 10 + (c.toNat - '0'.toNat)) 0

/-- The capture groups of the anchored regex `^(\d+)(s|m|h|d)$` from
`TimerExpression::parse_duration`: the digit run and the unit character,
or `none` when the input does not match. -/
def timerCaptures (duration_str : String) : Option (List Char × Char) :=
  match duration_str.data.reverse with
  | [] => none
  | u :: rev_ds =>
    let ds := rev_ds.reverse
    if ds ≠ [] && ds.all Char.isDigit && isTimerUnit u then
      some (ds, u)
    else
      none

/-- Seconds per unit, from the `match unit` in `parse_duration`
(`Duration::from_secs(number * factor)`). -/
def unitFactor (u : Char) : Nat :=
  if u = 's' then 1
  else if u = 'm' then 60
  else if u = 'h' then 3600
  else 86400

/-- The condition under which the multiplication `number * factor` in
`parse_duration` overflows `u64`: the input matches the duration regex, the
numeral itself fits `u64` (so `parse::<u64>` succeeds), but the product does
not.  A build with overflow checks (the default debug profile, hence
`cargo test`) panics exactly here; a default release build wraps instead
(see `parse_duration`). -/
def timerMulOverflows (duration_str : String) : Bool :=
  match timerCaptures duration_str with
  | none => false
  | some (ds, u) =>
    digitsVal ds < 2 ^ 64 && 2 ^ 64 ≤ digitsVal ds * unitFactor u

/-- `TimerExpression::parse_duration`, returning the duration in seconds.
The multiplication `number * factor` is `u64` arithmetic; a default release
build wraps on overflow, modelled by the explicit `% 2 ^ 64` (a build with
overflow checks panics there instead, see `timerMulOverflows`). -/
def parse_duration (duration_str : String) : Except ValidationError Nat :=
  match timerCaptures duration_str with
  | none =>
    .error (.invalidValue "timer_duration" duration_str
      "Duration must be in format: number + unit (s|m|h|d)")
  | some (ds, u) =>
    if digitsVal ds ≥ 2 ^ 64 then
      -- str::parse::<u64> fails on numerals beyond u64::MAX
      .error (.invalidValue "timer_duration" duration_str
        "Invalid number in duration")
    else
      let number := digitsVal ds
      let duration :=
        if u = 's' then number
        else if u = 'm' then number * 60 % 2 ^ 64
        else if u = 'h' then number * 3600 % 2 ^ 64
        else number * 86400 % 2 ^ 64
      if duration = 0 then
        .error (.invalidValue "timer_duration" duration_str
          "Duration must be greater than 0")
      else if duration > 86400 * 30 then
        .error (.invalidValue "timer_duration" duration_str
          "Duration cannot exceed 30 days")
      else
        .ok duration

/-- `TimerExpression` (trigger_condition.rs); `parsed_duration` holds
seconds. -/
structure TimerExpression where
  duration : String
  parsed_duration : Option Nat
  deriving Repr, DecidableEq

namespace TimerExpression

/-- `TimerExpression::new`. -/
def new (duration : String) : Except ValidationError TimerExpression :=
  match parse_duration duration with
  | .error e => .error e
  | .ok parsed => .ok { duration := duration, parsed_duration := some parsed }

/-- `TimerExpression::duration()` (renamed: the Lean structure field already
takes the source field name `duration`), in seconds. -/
def durationValue (self : TimerExpression) : Except ValidationError Nat :=
  match self.parsed_duration with
  | some d => .ok d
  | none => parse_duration self.duration

/-- `TimerExpression::validate`. -/
def validate (self : TimerExpression) : Except ValidationError Unit :=
  match self.durationValue with
  | .error e => .error e
  | .ok _ => .ok ()

end TimerExpression

/-! ## Event patterns (trigger_condition.rs) -/

/-- `str::split('*')` on the character list of the pattern: the fragments
between the `*` occurrences, in order. -/
def splitStar : List Char → List (List Char)
  | [] => [[]]
  | c :: cs =>
    if c = '*' then
      [] :: splitStar cs
    else
      match splitStar cs with
      | [] => [[c]]
      | p :: ps => (c :: p) :: ps

/-- `str::contains(&str)` as substring containment on character lists
(UTF-8 byte containment of well-formed strings coincides with character-list
containment, since a match can only start and end on character boundaries). -/
def containsSub (needle : List Char) : List Char → Bool
  | [] => needle.isEmpty
  | c :: rest => needle.isPrefixOf (c :: rest) || containsSub needle rest

/-- `EventPattern` (trigger_condition.rs).  A compiled regex from the
external `regex` crate is modelled as the Boolean matcher the engine
returns. -/
structure EventPattern where
  pattern : String
  use_regex : Bool
  compiled_regex : Option (String → Bool)

namespace EventPattern

/-- `EventPattern::validate_pattern`; `pattern.is_empty()` and
`pattern.len() > 255` count UTF-8 bytes (`String.utf8ByteSize`). -/
def validate_pattern (pattern : String) : Except ValidationError Unit :=
  if pattern.utf8ByteSize = 0 then
    .error (.emptyValue "event_pattern")
  else if pattern.utf8ByteSize > 255 then
    .error (.tooLong "event_pattern" pattern.utf8ByteSize 255)
  else
    .ok ()

/-- `EventPattern::new`. -/
def new (pattern : String) : Except ValidationError EventPattern :=
  match validate_pattern pattern with
  | .error e => .error e
  | .ok _ => .ok { pattern := pattern, use_regex := false, compiled_regex := none }

/-- `EventPattern::with_regex`.  The compile step `Regex::new(&pattern_str)`
runs in the external `regex` crate; its successfully compiled result is
passed in as the matcher `re` (the compile-failure branch is not needed by
any claim). -/
def with_regex (pattern : String) (re : String → Bool) :
    Except ValidationError EventPattern :=
  match validate_pattern pattern with
  | .error e => .error e
  | .ok _ => .ok { pattern := pattern, use_regex := true, compiled_regex := some re }

/-- `EventPattern::matches`. -/
def «matches» (self : EventPattern) (event_type : String) : Bool :=
  if self.use_regex then
    match self.compiled_regex with
    | some re => re event_type
    | none =>
      -- Fallback to simple string matching if regex compilation failed
      self.pattern == event_type
  else
    if self.pattern.data.contains '*' then
      match splitStar self.pattern.data with
      | [p0, p1] => p0.isPrefixOf event_type.data && p1.isSuffixOf event_type.data
      | _ => false
    else
      self.pattern == event_type

/-- `EventPattern::validate`.  The source additionally recompiles the regex
for `use_regex` patterns whose compiled regex is absent (possible only after
deserialization, never through the constructors modelled here); that external
compile check is omitted. -/
def validate (self : EventPattern) : Except ValidationError Unit :=
  validate_pattern self.pattern

end EventPattern

/-- Modelled from the spec: the semantics of the compiled regular expression
`user\.(created|updated)` named in §8 ("regex pattern `user\.(created|updated)`
matches both suffixes and rejects `user.deleted`").  The engine itself lives
in the external `regex` crate; an unanchored `is_match` of this pattern holds
exactly when the text contains `user.created` or `user.updated` as a
substring. -/
def regexUserCreatedUpdated (s : String) : Bool :=
  containsSub "user.created".data s.data || containsSub "user.updated".data s.data

/-! ## Logical expressions and the condition tree (trigger_condition.rs) -/

/-- `LogicalExpression` (trigger_condition.rs). -/
structure LogicalExpression where
  expression : String
  deriving Repr, DecidableEq

namespace LogicalExpression

/-- The `allowed_operators` array of `validate_expression`. -/
def allowed_operators : List String :=
  ["AND", "OR", "NOT", ">", "<", ">=", "<=", "=", "!="]

/-- `LogicalExpression::validate_expression`. -/
def validate_expression (expression : String) : Except ValidationError Unit :=
  if expression.length = 0 then
    .error (.emptyValue "logical_expression")
  else if expression.length > 1000 then
    .error (.tooLong "logical_expression" expression.length 1000)
  else if !(allowed_operators.any fun op => containsSub op.data expression.data) then
    .error (.invalidValue "logical_expression" expression
      "Expression must contain at least one logical operator")
  else
    .ok ()

/-- `LogicalExpression::new`. -/
def new (expression : String) : Except ValidationError LogicalExpression :=
  match validate_expression expression with
  | .error e => .error e
  | .ok _ => .ok { expression := expression }

/-- `LogicalExpression::validate`. -/
def validate (self : LogicalExpression) : Except ValidationError Unit :=
  validate_expression self.expression

end LogicalExpression

/-- `LogicalOperator` (trigger_condition.rs). -/
inductive LogicalOperator where
  | and
  | or
  | not
  deriving Repr, DecidableEq

/-- `TriggerCondition` (trigger_condition.rs), the recursive condition
tree. -/
inductive TriggerCondition where
  | Always
  | Never
  | Timer (t : TimerExpression)
  | Event (e : EventPattern)
  | Expression (l : LogicalExpression)
  | Composite (left : TriggerCondition) (operator : LogicalOperator)
      (right : TriggerCondition)

namespace TriggerCondition

/-- `TriggerCondition::validate` (recursive, left child before right). -/
def validate : TriggerCondition → Except ValidationError Unit
  | .Always | .Never => .ok ()
  | .Timer t => t.validate
  | .Event e => e.validate
  | .Expression l => l.validate
  | .Composite left _ right =>
    match left.validate with
    | .error e => .error e
    | .ok _ => right.validate

/-- `TriggerCondition::timer`. -/
def timer (duration : String) : Except ValidationError TriggerCondition :=
  match TimerExpression.new duration with
  | .error e => .error e
  | .ok t => .ok (.Timer t)

end TriggerCondition

/-! ## Trigger names (trigger_name.rs) -/

/-- The character class `[a-zA-Z0-9_-]` of the `validate_characters`
regex. -/
def isNameChar (c : Char) : Bool :=
  ('a' ≤ c && c ≤ 'z') || ('A' ≤ c && c ≤ 'Z') || ('0' ≤ c && c ≤ '9')
    || c = '_' || c = '-'

/-- `TriggerName` (trigger_name.rs). -/
structure TriggerName where
  value : String
  deriving Repr, DecidableEq

namespace TriggerName

/-- `TriggerName::MIN_LENGTH`. -/
def MIN_LENGTH : Nat := 1

/-- `TriggerName::MAX_LENGTH`. -/
def MAX_LENGTH : Nat := 64

/-- `TriggerName::validate_characters`: `^[a-zA-Z0-9_-]+$` must match. -/
def validate_characters (name : String) : Except ValidationError Unit :=
  if !(decide (name.data ≠ []) && name.data.all isNameChar) then
    .error (.invalidValue "trigger_name" name
      "Name can only contain letters, numbers, hyphens, and underscores")
  else
    .ok ()

/-- `TriggerName::validate_first_character`.  `char::is_alphabetic` is
Unicode alphabetic in Rust; this runs after `validate_characters` has
restricted the name to `[a-zA-Z0-9_-]`, where it coincides with ASCII
`isAlpha`. -/
def validate_first_character (name : String) : Except ValidationError Unit :=
  match name.data with
  | [] => .ok () -- unreachable: emptiness was rejected earlier
  | first_char :: _ =>
    if !first_char.isAlpha && first_char ≠ '_' then
      .error (.invalidValue "trigger_name" name
        "Name must start with a letter or underscore")
    else
      .ok ()

/-- The `reserved_names` array of `validate_not_reserved`, in source order
(including the duplicated `"function"`). -/
def reserved_names : List String :=
  ["system", "admin", "root", "default", "config",
   "hexafn", "hexa", "trigger", "condition", "pipeline",
   "feed", "filter", "format", "function", "forward", "feedback",
   "store", "cast", "run", "watch", "bridge", "core",
   "null", "undefined", "true", "false", "if", "else",
   "for", "while", "return", "function", "class", "struct",
   "timer", "schedule", "cron", "interval", "delay",
   "event", "emit", "publish", "subscribe", "topic"]

/-- `TriggerName::validate_not_reserved`.  `str::to_lowercase` is applied to
names already restricted to `[a-zA-Z0-9_-]`, where it is the per-character
ASCII lowering. -/
def validate_not_reserved (name : String) : Except ValidationError Unit :=
  let lowercase_name : String := ⟨name.data.map Char.toLower⟩
  if reserved_names.contains lowercase_name then
    .error (.invalidValue "trigger_name" name
      ("'" ++ name ++ "' is a reserved name and cannot be used"))
  else
    .ok ()

/-- `TriggerName::validate_name`. -/
def validate_name (name : String) : Except ValidationError Unit :=
  if name.length = 0 then
    .error (.emptyValue "trigger_name")
  else if name.length < MIN_LENGTH then
    .error (.tooShort "trigger_name" name.length MIN_LENGTH)
  else if name.length > MAX_LENGTH then
    .error (.tooLong "trigger_name" name.length MAX_LENGTH)
  else
    match validate_characters name with
    | .error e => .error e
    | .ok _ =>
      match validate_first_character name with
      | .error e => .error e
      | .ok _ => validate_not_reserved name

/-- `TriggerName::new`. -/
def new (name : String) : Except ValidationError TriggerName :=
  match validate_name name with
  | .error e => .error e
  | .ok _ => .ok { value := name }

/-- `TriggerName::validate`. -/
def validate (self : TriggerName) : Except ValidationError Unit :=
  validate_name self.value

end TriggerName

/-! ## Trigger configuration (trigger_config.rs) -/

/-- `TriggerConfig` (trigger_config.rs), metadata as an association list and
`created_at` as a `Nat` tick. -/
structure TriggerConfig where
  name : TriggerName
  condition : TriggerCondition
  description : Option String
  metadata : List (String × String)
  enabled : Bool
  max_executions : Option Nat
  timeout_seconds : Option Nat
  created_at : Nat

namespace TriggerConfig

/-- `TriggerConfig::new`. -/
def new (name : String) (condition : TriggerCondition) (now : Nat) :
    Except ValidationError TriggerConfig :=
  match TriggerName.new name with
  | .error e => .error e
  | .ok n =>
    match condition.validate with
    | .error e => .error e
    | .ok _ =>
      .ok { name := n
            condition := condition
            description := none
            metadata := []
            enabled := true
            max_executions := none
            timeout_seconds := some 30 -- Default 30 second timeout
            created_at := now }

/-- `TriggerConfig::with_metadata` (`HashMap::insert`; claims only use
distinct keys, where appending is an accurate association-list model). -/
def with_metadata (self : TriggerConfig) (key value : String) : TriggerConfig :=
  { self with metadata := self.metadata ++ [(key, value)] }

/-- The `for (key, value) in &self.metadata` loop of
`TriggerConfig::validate`. -/
def validateMetadata : List (String × String) → Except ValidationError Unit
  | [] => .ok ()
  | (key, value) :: rest =>
    if key.length = 0 then
      .error (.emptyValue "metadata_key")
    else if key.length > 100 then
      .error (.tooLong "metadata_key" key.length 100)
    else if value.length > 1000 then
      .error (.tooLong "metadata_value" value.length 1000)
    else
      validateMetadata rest

/-- The `if let Some(timeout) = self.timeout_seconds` block of
`TriggerConfig::validate`. -/
def validateTimeout (timeout_seconds : Option Nat) : Except ValidationError Unit :=
  match timeout_seconds with
  | some timeout =>
    if timeout = 0 then
      .error (.invalidValue "timeout_seconds" (toString timeout)
        "Timeout must be greater than 0")
    else if timeout > 3600 then
      .error (.invalidValue "timeout_seconds" (toString timeout)
        "Timeout cannot exceed 3600 seconds (1 hour)")
    else
      .ok ()
  | none => .ok ()

/-- The `if let Some(max_exec) = self.max_executions` block of
`TriggerConfig::validate`. -/
def validateMaxExecutions (max_executions : Option Nat) : Except ValidationError Unit :=
  match max_executions with
  | some max_exec =>
    if max_exec = 0 then
      .error (.invalidValue "max_executions" (toString max_exec)
        "Max executions must be greater than 0")
    else
      .ok ()
  | none => .ok ()

/-- `TriggerConfig::validate`: name, condition, timeout, max executions and
per-entry metadata checks, in source order.  Note: no check on the number of
metadata entries appears in the source. -/
def validate (self : TriggerConfig) : Except ValidationError Unit :=
  match self.name.validate with
  | .error e => .error e
  | .ok _ =>
  match self.condition.validate with
  | .error e => .error e
  | .ok _ =>
  match validateTimeout self.timeout_seconds with
  | .error e => .error e
  | .ok _ =>
  match validateMaxExecutions self.max_executions with
  | .error e => .error e
  | .ok _ => validateMetadata self.metadata

end TriggerConfig

/-! ## The §4.2 transition table (claim C1) -/

/-- The directed-edge table of spec §4.2, written from the specification for
comparison with `StateType.can_transition_to` (which is embedded from the
source). -/
def specTransitionTable : List (StateType × StateType) :=
  [(.inactive, .active), (.inactive, .archived),
   (.active, .executing), (.active, .suspended), (.active, .inactive),
   (.active, .archived),
   (.executing, .success), (.executing, .failed), (.executing, .suspended),
   (.success, .active), (.success, .suspended), (.success, .archived),
   (.failed, .active), (.failed, .suspended), (.failed, .archived),
   (.suspended, .active), (.suspended, .inactive), (.suspended, .archived)]

/-- Claim C1, counterexample: the claim asserts that every self-transition
returns true, `Archived -> Archived` included; in the source the
`(Archived, _) => false` match arm precedes the self-transition arm, so
`Archived.can_transition_to(Archived)` is false. -/
theorem archived_self_transition_counterexample :
    StateType.can_transition_to .archived .archived = false := by
  decide

/-- Claim C1, amended: `can_transition_to(from, to)` returns true exactly
when `(from, to)` is an edge of the §4.2 table or `from = to` with
`from ≠ Archived`; every self-transition except `Archived -> Archived`
returns true, and `Archived` has no outgoing edge at all, the self-loop
included. -/
theorem can_transition_to_table (a b : StateType) :
    StateType.can_transition_to a b = true ↔
      ((a, b) ∈ specTransitionTable ∨ (a = b ∧ a ≠ .archived)) := by
  revert a b
  decide

/-! ## Max-failure breach trace (claim C2) -/

/-- The starting state of the C2 trace: in `Executing` with
`failure_count = 0`. -/
def c2state0 : TriggerState := TriggerState.new .executing 0

/-- Re-reaching `Executing` between failure recordings:
`transition_to(Active)` then `start_execution`. -/
def c2cycle (s : TriggerState) : Except StateTransitionError TriggerState :=
  (s.transition_to .active 0).bind fun a => a.start_execution 0

/-- One failure recording with `max_failures = 3`, after re-reaching
`Executing`. -/
def c2next (r : Except StateTransitionError TriggerState) :
    Except StateTransitionError TriggerState :=
  r.bind fun s => (c2cycle s).bind fun e => e.record_execution_failure "boom" 3 0

/-- First failure call of the C2 trace. -/
def c2call1 : Except StateTransitionError TriggerState :=
  c2state0.record_execution_failure "boom" 3 0

/-- Second failure call of the C2 trace. -/
def c2call2 : Except StateTransitionError TriggerState := c2next c2call1

/-- Third failure call of the C2 trace. -/
def c2call3 : Except StateTransitionError TriggerState := c2next c2call2

/-- Fourth failure call of the C2 trace. -/
def c2call4 : Except StateTransitionError TriggerState := c2next c2call3

/-- Claim C2: from `Executing` with `failure_count = 0`, four
`record_execution_failure(_, 3)` calls (re-reaching `Executing` via
`transition_to(Active)` and `start_execution` between calls) return `Ok`
with state `Failed` and failure counts 1, 2, 3, and then
`Err(MaxFailuresExceeded{current_failures: 4, max_allowed: 3})`: the fourth
call yields the error instead of a `Failed` state, so the transition to
`Failed` is not completed. -/
theorem max_failures_breach_trace :
    c2call1.map (fun s => (s.current_state, s.failure_count)) = .ok (.failed, 1)
    ∧ c2call2.map (fun s => (s.current_state, s.failure_count)) = .ok (.failed, 2)
    ∧ c2call3.map (fun s => (s.current_state, s.failure_count)) = .ok (.failed, 3)
    ∧ c2call4 = .error (.maxFailuresExceeded 4 3) := by
  refine ⟨rfl, rfl, rfl, rfl⟩

/-! ## Timer parsing under u64 overflow (claims C5 and C7) -/

/-- Claim C5, failing input: the numeral `144115188075855877` is `2^57 + 5`,
so its duration is about `1.4 * 10^17` days, far beyond the 30-day cap the
claim requires to be rejected; yet under the release-profile wrapping
`u64` arithmetic `(2^57 + 5) * 86400 ≡ 432000 (mod 2^64)` — five days — so
`parse_duration` accepts the string (and a build with overflow checks
panics on it instead). -/
theorem timer_overflow_accepts_out_of_range :
    parse_duration "144115188075855877d" = .ok 432000
    ∧ (TimerExpression.new "144115188075855877d").isOk = true
    ∧ 86400 * 30 < 144115188075855877 * 86400
    ∧ timerMulOverflows "144115188075855877d" = true := by
  refine ⟨rfl, rfl, by norm_num, rfl⟩

/-- Claim C7, failing input: `"300000000000000000d"` matches the duration
regex and its numeral fits `u64`, but `number * 86400` exceeds `u64::MAX`,
so the multiplication in `parse_duration` overflows: a build with overflow
checks (the default debug profile, hence `cargo test`) panics here, against
the claim that construction never panics and always returns `Ok` or a typed
`ValidationError`. -/
theorem timer_mul_overflow_panics :
    timerMulOverflows "300000000000000000d" = true := by
  decide

/-! ## Frame conditions of transitions (claims C9 and C4) -/

/-- Claim C9: when the table allows `current -> target`, `transition_to`
returns `Ok` of the state with `previous_state = current`,
`current_state = target`, a fresh `entered_at`, and `execution_count`,
`failure_count`, `last_executed_at` and `metadata` unchanged (the `reason`
is cleared, since `transition_to` passes `None`); otherwise it returns
`Err(InvalidTransition)`. -/
theorem transition_to_frame (s : TriggerState) (target : StateType) (now : Nat) :
    (s.current_state.can_transition_to target = true →
      s.transition_to target now =
        .ok { s with
              previous_state := some s.current_state
              current_state := target
              entered_at := now
              reason := none })
    ∧ (s.current_state.can_transition_to target = false →
      s.transition_to target now =
        .error (.invalidTransition s.current_state target
          ("Transition from " ++ s.current_state.display ++ " to "
            ++ target.display ++ " is not allowed"))) := by
  constructor <;> intro h <;>
    simp [TriggerState.transition_to, TriggerState.transition_to_with_reason, h]

/-- Witness for claim C9: both branches of `transition_to_frame` at concrete
inputs (`Inactive -> Active` allowed, `Inactive -> Executing` rejected). -/
theorem transition_to_frame_witness :
    (TriggerState.new .inactive 0).transition_to .active 5 =
      .ok { TriggerState.new .inactive 0 with
            previous_state := some .inactive
            current_state := .active
            entered_at := 5
            reason := none }
    ∧ (TriggerState.new .inactive 0).transition_to .executing 5 =
      .error (.invalidTransition .inactive .executing
        "Transition from inactive to executing is not allowed") :=
  ⟨(transition_to_frame (TriggerState.new .inactive 0) .active 5).1 rfl,
   (transition_to_frame (TriggerState.new .inactive 0) .executing 5).2 rfl⟩

/-- Claim C4: `record_execution_success` returns `Err(InvalidTransition)`
whenever the current state is not `Executing`, and from `Executing` returns
`Ok` with `current_state = Success`, `previous_state = Executing`,
`execution_count` incremented by 1, `failure_count` reset to 0 and
`last_executed_at` set. -/
theorem record_execution_success_spec (s : TriggerState) (now : Nat) :
    (s.current_state ≠ .executing →
      s.record_execution_success now =
        .error (.invalidTransition s.current_state .success
          "Can only record success from executing state"))
    ∧ (s.current_state = .executing →
      s.record_execution_success now =
        .ok { s with
              previous_state := some .executing
              current_state := .success
              entered_at := now
              reason := some "Execution completed successfully"
              execution_count := s.execution_count + 1
              failure_count := 0
              last_executed_at := some now }) := by
  constructor
  · intro h
    simp [TriggerState.record_execution_success, h]
  · intro h
    simp [TriggerState.record_execution_success, h,
          TriggerState.transition_to_with_reason, StateType.can_transition_to]

/-- Witness for claim C4: both branches of `record_execution_success_spec`
at concrete states (`Active` rejected, `Executing` accepted with the counter
and reset effects). -/
theorem record_execution_success_spec_witness :
    (TriggerState.new .active 0).record_execution_success 7 =
      .error (.invalidTransition .active .success
        "Can only record success from executing state")
    ∧ (TriggerState.new .executing 0).record_execution_success 7 =
      .ok { TriggerState.new .executing 0 with
            previous_state := some .executing
            current_state := .success
            entered_at := 7
            reason := some "Execution completed successfully"
            execution_count := 1
            failure_count := 0
            last_executed_at := some 7 } :=
  ⟨(record_execution_success_spec (TriggerState.new .active 0) 7).1 (by decide),
   (record_execution_success_spec (TriggerState.new .executing 0) 7).2 rfl⟩

/-! ## Reachability invariant (claim C3) -/

/-- Both counters are untouched by a successful
`transition_to_with_reason`. -/
theorem transition_counts {s s' : TriggerState} {t : StateType}
    {r : Option String} {now : Nat}
    (h : s.transition_to_with_reason t r now = .ok s') :
    s'.execution_count = s.execution_count
      ∧ s'.failure_count = s.failure_count := by
  unfold TriggerState.transition_to_with_reason at h
  split at h
  · injection h with h2
    subst h2
    exact ⟨rfl, rfl⟩
  · cases h

/-- A successful `record_execution_success` bumps `execution_count` by one
and resets `failure_count`. -/
theorem record_success_counts {s s' : TriggerState} {now : Nat}
    (h : s.record_execution_success now = .ok s') :
    s'.execution_count = s.execution_count + 1 ∧ s'.failure_count = 0 := by
  unfold TriggerState.record_execution_success at h
  split at h
  · have := transition_counts h
    simpa using this
  · cases h

/-- A successful `record_execution_failure` bumps both counters by one. -/
theorem record_failure_counts {s s' : TriggerState} {msg : String}
    {mf now : Nat}
    (h : s.record_execution_failure msg mf now = .ok s') :
    s'.execution_count = s.execution_count + 1
      ∧ s'.failure_count = s.failure_count + 1 := by
  unfold TriggerState.record_execution_failure at h
  split at h
  · dsimp only at h
    split at h
    · cases h
    · have := transition_counts h
      simpa using this
  · cases h

/-- The states reachable from `TriggerState::new` by keeping the `Ok` result
of any sequence of the lifecycle operations. -/
inductive ReachableState : TriggerState → Prop where
  | base (initial_state : StateType) (now : Nat) :
      ReachableState (TriggerState.new initial_state now)
  | transitionWithReason {s s' : TriggerState} (target : StateType)
      (reason : Option String) (now : Nat) : ReachableState s →
      s.transition_to_with_reason target reason now = .ok s' → ReachableState s'
  | transition {s s' : TriggerState} (target : StateType) (now : Nat) :
      ReachableState s →
      s.transition_to target now = .ok s' → ReachableState s'
  | start {s s' : TriggerState} (now : Nat) : ReachableState s →
      s.start_execution now = .ok s' → ReachableState s'
  | recordSuccess {s s' : TriggerState} (now : Nat) : ReachableState s →
      s.record_execution_success now = .ok s' → ReachableState s'
  | recordFailure {s s' : TriggerState} (msg : String) (mf now : Nat) :
      ReachableState s →
      s.record_execution_failure msg mf now = .ok s' → ReachableState s'
  | doSuspend {s s' : TriggerState} (reason : String) (now : Nat) :
      ReachableState s → s.suspend reason now = .ok s' → ReachableState s'
  | doResume {s s' : TriggerState} (now : Nat) : ReachableState s →
      s.resume now = .ok s' → ReachableState s'
  | doArchive {s s' : TriggerState} (reason : String) (now : Nat) :
      ReachableState s → s.archive reason now = .ok s' → ReachableState s'

/-- Claim C3: on every state reachable from `TriggerState::new` through `Ok`
results of the lifecycle operations, `failure_count ≤ execution_count`
holds; moreover each `Ok`-returning `record_execution_success` or
`record_execution_failure` increases `execution_count` by exactly one. -/
theorem failure_le_execution_invariant :
    (∀ s : TriggerState, ReachableState s →
      s.failure_count ≤ s.execution_count)
    ∧ (∀ (s : TriggerState) (now : Nat) (s' : TriggerState),
        s.record_execution_success now = .ok s' →
        s'.execution_count = s.execution_count + 1)
    ∧ (∀ (s : TriggerState) (msg : String) (mf now : Nat)
        (s' : TriggerState),
        s.record_execution_failure msg mf now = .ok s' →
        s'.execution_count = s.execution_count + 1) := by
  refine ⟨?_, ?_, ?_⟩
  · intro s h
    induction h with
    | base initial_state now => exact Nat.le_refl 0
    | transitionWithReason target reason now _ hok ih =>
      have hc := transition_counts hok
      rw [hc.1, hc.2]; exact ih
    | transition target now _ hok ih =>
      have hc := transition_counts hok
      rw [hc.1, hc.2]; exact ih
    | start now _ hok ih =>
      have hc := transition_counts hok
      rw [hc.1, hc.2]; exact ih
    | recordSuccess now _ hok ih =>
      have hc := record_success_counts hok
      rw [hc.1, hc.2]; exact Nat.zero_le _
    | recordFailure msg mf now _ hok ih =>
      have hc := record_failure_counts hok
      rw [hc.1, hc.2]; exact Nat.succ_le_succ ih
    | doSuspend reason now _ hok ih =>
      have hc := transition_counts hok
      rw [hc.1, hc.2]; exact ih
    | doResume now _ hok ih =>
      unfold TriggerState.resume at hok
      split at hok
      · have hc := transition_counts hok
        rw [hc.1, hc.2]; exact ih
      · cases hok
    | doArchive reason now _ hok ih =>
      have hc := transition_counts hok
      rw [hc.1, hc.2]; exact ih
  · intro s now s' h
    exact (record_success_counts h).1
  · intro s msg mf now s' h
    exact (record_failure_counts h).1

/-- Witness for claim C3: the invariant applied to the concrete reachable
state `TriggerState::new(Active)`. -/
theorem failure_le_execution_invariant_witness :
    (TriggerState.new .active 0).failure_count
      ≤ (TriggerState.new .active 0).execution_count :=
  failure_le_execution_invariant.1 (TriggerState.new .active 0)
    (ReachableState.base .active 0)

/-! ## Wildcard splitting lemmas (claims C6 and C10) -/

/-- `splitStar` never returns the empty fragment list. -/
theorem splitStar_ne_nil (l : List Char) : splitStar l ≠ [] := by
  cases l with
  | nil => simp [splitStar]
  | cons c cs =>
    unfold splitStar
    split
    · simp
    · split <;> simp

/-- `split('*')` produces one more fragment than there are `*`s. -/
theorem splitStar_length (l : List Char) :
    (splitStar l).length = l.count '*' + 1 := by
  induction l with
  | nil => rfl
  | cons c cs ih =>
    unfold splitStar
    by_cases h : c = '*'
    · subst h
      simp [List.count_cons, ih]
    · rw [if_neg h]
      cases hsp : splitStar cs with
      | nil => exact absurd hsp (splitStar_ne_nil cs)
      | cons p ps =>
        rw [hsp] at ih
        simp only [List.length_cons] at ih ⊢
        rw [List.count_cons]
        simp [h, ih]

/-- A star-free pattern splits into the single fragment that is the whole
pattern. -/
theorem splitStar_count_zero (l : List Char) (h : l.count '*' = 0) :
    splitStar l = [l] := by
  induction l with
  | nil => rfl
  | cons c cs ih =>
    rw [List.count_cons] at h
    have hc : ¬(c = '*') := by
      intro hc
      subst hc
      simp at h
    have hcs : cs.count '*' = 0 := by
      simp [hc] at h
      omega
    unfold splitStar
    rw [if_neg hc, ih hcs]

/-- A pattern with exactly one `*` splits into the text before the `*` and
the text after it. -/
theorem splitStar_count_one (l : List Char) (h : l.count '*' = 1) :
    splitStar l = [l.takeWhile (· != '*'), (l.dropWhile (· != '*')).tail] := by
  induction l with
  | nil => simp at h
  | cons c cs ih =>
    rw [List.count_cons] at h
    by_cases hc : c = '*'
    · subst hc
      simp only [beq_self_eq_true, if_pos] at h
      have hcs : cs.count '*' = 0 := by omega
      unfold splitStar
      rw [if_pos rfl, splitStar_count_zero cs hcs]
      simp [List.takeWhile, List.dropWhile]
    · have hcs : cs.count '*' = 1 := by
        simp [hc] at h
        omega
      unfold splitStar
      rw [if_neg hc, ih hcs]
      have hbne : (c != '*') = true := by simp [hc]
      simp [List.takeWhile_cons, List.dropWhile_cons, hbne]

/-- A positive star count means `contains('*')` holds. -/
theorem contains_star_of_count_pos (l : List Char) (h : 0 < l.count '*') :
    l.contains '*' = true := by
  simp only [List.contains, List.elem_eq_mem, decide_eq_true_eq]
  exact List.count_pos_iff.mp h

/-- A zero star count means `contains('*')` fails. -/
theorem contains_star_of_count_zero (l : List Char) (h : l.count '*' = 0) :
    l.contains '*' = false := by
  simp only [List.contains, List.elem_eq_mem, decide_eq_false_iff_not]
  rw [List.count_eq_zero] at h
  exact h

/-- Claim C6: for a non-regex pattern with exactly one `*`, `matches` is the
prefix/suffix test against the text before and after the `*`
(`"user.*"` matches `"user.created"`, not `"order.created"`); for a pattern
without `*`, `matches` is string equality; for a pattern built with
`with_regex`, `matches` is the compiled regex's match, and for
`user\.(created|updated)` it accepts `user.created` and `user.updated` and
rejects `user.deleted`. -/
theorem event_pattern_matches_spec :
    (∀ ep : EventPattern, ep.use_regex = false →
      ep.pattern.data.count '*' = 1 → ∀ et : String,
      ep.«matches» et =
        ((ep.pattern.data.takeWhile (· != '*')).isPrefixOf et.data
          && ((ep.pattern.data.dropWhile (· != '*')).tail).isSuffixOf et.data))
    ∧ (∀ ep : EventPattern, ep.use_regex = false →
      ep.pattern.data.count '*' = 0 → ∀ et : String,
      ep.«matches» et = (ep.pattern == et))
    ∧ (∀ (p : String) (re : String → Bool) (ep : EventPattern),
        EventPattern.with_regex p re = .ok ep →
        ∀ et : String, ep.«matches» et = re et)
    ∧ (∀ ep : EventPattern, EventPattern.new "user.*" = .ok ep →
        ep.«matches» "user.created" = true ∧ ep.«matches» "order.created" = false)
    ∧ (∀ ep : EventPattern,
        EventPattern.with_regex "user\\.(created|updated)" regexUserCreatedUpdated
          = .ok ep →
        ep.«matches» "user.created" = true ∧ ep.«matches» "user.updated" = true
          ∧ ep.«matches» "user.deleted" = false) := by
  have hregex : ∀ (p : String) (re : String → Bool) (ep : EventPattern),
      EventPattern.with_regex p re = .ok ep →
      ∀ et : String, ep.«matches» et = re et := by
    intro p re ep h et
    unfold EventPattern.with_regex at h
    cases hv : EventPattern.validate_pattern p with
    | error e => rw [hv] at h; cases h
    | ok u => rw [hv] at h; injection h with h2; subst h2; rfl
  refine ⟨?_, ?_, hregex, ?_, ?_⟩
  · intro ep hr hcount et
    unfold EventPattern.«matches»
    rw [hr]
    simp only [Bool.false_eq_true, if_false]
    rw [contains_star_of_count_pos _ (by omega), if_pos rfl,
      splitStar_count_one _ hcount]
  · intro ep hr hcount et
    unfold EventPattern.«matches»
    rw [hr]
    simp only [Bool.false_eq_true, if_false]
    rw [contains_star_of_count_zero _ hcount]
    simp
  · intro ep h
    have : EventPattern.new "user.*"
        = .ok { pattern := "user.*", use_regex := false, compiled_regex := none } := rfl
    rw [this] at h
    injection h with h2
    subst h2
    exact ⟨by decide, by decide⟩
  · intro ep h
    rw [hregex _ _ _ h, hregex _ _ _ h, hregex _ _ _ h]
    exact ⟨by decide, by decide, by decide⟩

/-- Witness for claim C6: the one-star case at the concrete pattern
`"user.*"` and event `"user.created"`, with both sides evaluating to
`true`. -/
theorem event_pattern_matches_spec_witness :
    ({ pattern := "user.*", use_regex := false, compiled_regex := none }
        : EventPattern).«matches» "user.created"
      = ((("user.*").data.takeWhile (· != '*')).isPrefixOf "user.created".data
          && ((("user.*").data.dropWhile (· != '*')).tail).isSuffixOf
            "user.created".data) :=
  event_pattern_matches_spec.1
    { pattern := "user.*", use_regex := false, compiled_regex := none }
    rfl (by decide) "user.created"

/-- A two-star pattern of 127 two-byte characters plus `"**"`: 129
characters, but 256 UTF-8 bytes. -/
def c10pattern : String := ⟨List.replicate 127 'é' ++ ['*', '*']⟩

set_option maxRecDepth 8000 in
/-- Claim C10, counterexample: this pattern is non-empty, has 129 ≤ 255
characters and contains two `*`s, yet `EventPattern::new` rejects it with
`TooLong{256, 255}`, because the source's length check `pattern.len() > 255`
counts UTF-8 bytes — 256 here — not characters. -/
theorem multi_wildcard_byte_length_counterexample :
    0 < c10pattern.length
    ∧ c10pattern.length ≤ 255
    ∧ 2 ≤ c10pattern.data.count '*'
    ∧ EventPattern.new c10pattern
      = .error (.tooLong "event_pattern" 256 255) :=
  ⟨by decide, by decide, by decide, rfl⟩

/-- Claim C10, amended: a pattern that is non-empty and at most 255 in
`pattern.len()` — UTF-8 bytes, which is what `validate_pattern` measures —
containing two or more `*`s is accepted by `EventPattern::new`, but the
resulting pattern matches no event type at all — the pattern string itself
included — because `matches` only handles the two-fragment split of a
single `*` and falls through to `false` otherwise. -/
theorem multi_wildcard_never_matches (p : String) (h0 : 0 < p.utf8ByteSize)
    (h255 : p.utf8ByteSize ≤ 255) (h2 : 2 ≤ p.data.count '*') :
    ∃ ep : EventPattern, EventPattern.new p = .ok ep
      ∧ (∀ et : String, ep.«matches» et = false)
      ∧ ep.«matches» p = false := by
  have hall : ∀ et : String,
      ({ pattern := p, use_regex := false, compiled_regex := none }
        : EventPattern).«matches» et = false := by
    intro et
    unfold EventPattern.«matches»
    simp only [Bool.false_eq_true, if_false]
    rw [contains_star_of_count_pos _ (by omega), if_pos rfl]
    have hlen := splitStar_length p.data
    rcases hsp : splitStar p.data with _ | ⟨a, _ | ⟨b, _ | ⟨c, rest⟩⟩⟩
    · rfl
    · rfl
    · rw [hsp] at hlen
      simp only [List.length_cons, List.length_nil] at hlen
      omega
    · rfl
  refine ⟨{ pattern := p, use_regex := false, compiled_regex := none },
    ?_, hall, hall p⟩
  unfold EventPattern.new EventPattern.validate_pattern
  rw [if_neg (by omega), if_neg (by omega)]

/-- Witness for claim C10 (amended): the theorem applied to the concrete
two-star pattern `"a**b"` (4 bytes). -/
theorem multi_wildcard_never_matches_witness :
    ∃ ep : EventPattern, EventPattern.new "a**b" = .ok ep
      ∧ (∀ et : String, ep.«matches» et = false)
      ∧ ep.«matches» "a**b" = false :=
  multi_wildcard_never_matches "a**b" (by decide) (by decide) (by decide)

/-! ## Configuration validation (claim C8) -/

/-- Fifty-one metadata entries with distinct short keys. -/
def c8meta : List (String × String) :=
  (List.range 51).map fun i => ("k" ++ toString i, "v")

/-- A configuration whose metadata map has 51 entries and whose every other
field satisfies its constraint. -/
def c8config : TriggerConfig :=
  { name := { value := "test-x" }
    condition := .Always
    description := none
    metadata := c8meta
    enabled := true
    max_executions := none
    timeout_seconds := some 30
    created_at := 0 }

/-- Claim C8, counterexample: `TriggerConfig::validate` never counts the
metadata entries, so this configuration with 51 of them — reachable through
`TriggerConfig::new` followed by 51 `with_metadata` calls — validates `Ok`,
against the claim that more than 50 entries are rejected. -/
theorem metadata_count_unchecked_counterexample :
    c8config.validate = .ok ()
    ∧ c8config.metadata.length = 51
    ∧ (TriggerConfig.new "test-x" .Always 0).map
        (fun c => c8meta.foldl (fun cfg kv => cfg.with_metadata kv.1 kv.2) c)
      = .ok c8config := by
  refine ⟨rfl, rfl, rfl⟩

/-- A metadata list containing an over-long key or value makes the metadata
loop of `TriggerConfig::validate` fail. -/
theorem validateMetadata_isOk_false {l : List (String × String)}
    (h : ∃ kv ∈ l, 100 < kv.1.length ∨ 1000 < kv.2.length) :
    (TriggerConfig.validateMetadata l).isOk = false := by
  induction l with
  | nil => simp at h
  | cons kv rest ih =>
    obtain ⟨w, hw, hlong⟩ := h
    unfold TriggerConfig.validateMetadata
    split
    · rfl
    · split
      · rfl
      · split
        · rfl
        · rcases List.mem_cons.mp hw with hhead | htail
          · subst hhead
            exfalso
            omega
          · exact ih ⟨w, htail, hlong⟩

/-- A zero or over-one-hour timeout makes the timeout check of
`TriggerConfig::validate` fail. -/
theorem validateTimeout_isOk_false {t? : Option Nat}
    (h : ∃ t, t? = some t ∧ (t = 0 ∨ 3600 < t)) :
    (TriggerConfig.validateTimeout t?).isOk = false := by
  obtain ⟨t, rfl, ht⟩ := h
  unfold TriggerConfig.validateTimeout
  dsimp only
  rcases ht with h0 | h3600
  · subst h0
    rfl
  · rw [if_neg (by omega), if_pos (by omega)]
    rfl

/-- A zero `max_executions` makes the corresponding check of
`TriggerConfig::validate` fail. -/
theorem validateMaxExecutions_isOk_false {m? : Option Nat} (h : m? = some 0) :
    (TriggerConfig.validateMaxExecutions m?).isOk = false := by
  subst h
  rfl

/-- Claim C8, amended: `TriggerConfig::validate` returns `Err` for any
metadata key longer than 100 characters, any metadata value longer than
1000 characters, a `timeout_seconds` of 0 or greater than 3600, or a
`max_executions` of 0; it does not bound the number of metadata entries
(a 51-entry map with otherwise-valid fields passes, see the
counterexample). -/
theorem trigger_config_validate_rejects (cfg : TriggerConfig)
    (h : (∃ kv ∈ cfg.metadata, 100 < kv.1.length)
      ∨ (∃ kv ∈ cfg.metadata, 1000 < kv.2.length)
      ∨ (∃ t, cfg.timeout_seconds = some t ∧ (t = 0 ∨ 3600 < t))
      ∨ cfg.max_executions = some 0) :
    (cfg.validate).isOk = false := by
  unfold TriggerConfig.validate
  cases hn : cfg.name.validate with
  | error e => rfl
  | ok u =>
  cases hc : cfg.condition.validate with
  | error e => rfl
  | ok v =>
  cases ht : TriggerConfig.validateTimeout cfg.timeout_seconds with
  | error e => rfl
  | ok w =>
  cases hm : TriggerConfig.validateMaxExecutions cfg.max_executions with
  | error e => rfl
  | ok x =>
  rcases h with hkey | hval | htime | hmax
  · exact validateMetadata_isOk_false
      (hkey.imp fun kv hkv => ⟨hkv.1, Or.inl hkv.2⟩)
  · exact validateMetadata_isOk_false
      (hval.imp fun kv hkv => ⟨hkv.1, Or.inr hkv.2⟩)
  · have := validateTimeout_isOk_false htime
    rw [ht] at this
    cases this
  · have := validateMaxExecutions_isOk_false hmax
    rw [hm] at this
    cases this

/-- Witness for claim C8 (amended): a configuration with
`timeout_seconds = 0` fails validation. -/
theorem trigger_config_validate_rejects_witness :
    (TriggerConfig.validate
      { name := { value := "test-x" }
        condition := .Always
        description := none
        metadata := []
        enabled := true
        max_executions := none
        timeout_seconds := some 0
        created_at := 0 }).isOk = false :=
  trigger_config_validate_rejects _
    (Or.inr (Or.inr (Or.inl ⟨0, rfl, Or.inl rfl⟩)))

end HexaFn
